import Mathlib

/-!
Verification model of the `unified-analytics` repository.

The development shallowly embeds the JavaScript sources as pure Lean
functions and explicit state passing:

* `JSValue` / `Obj` model JavaScript values and plain objects
  (association lists in insertion order, as produced by `Object.entries`).
* `safeString`, `stringifyProperties` embed `BaseProvider` (helpers shared
  by every adapter).
* `validateConfig` embeds `utils/helpers.js`.
* `CountlyProviderWeb` / `PostHogProviderWeb` embed the two web adapters,
  with outgoing third-party SDK invocations reified as `SdkCall` values.
* `CountlyProvider` / `PostHogProvider` embed the platform proxies
  (resolved to the web adapters; the native adapters implement the
  user-context operations with identical bodies).
* `UnifiedAnalytics` embeds the orchestrator singleton
  (`UnifiedAnalytics.js`); `init` additionally reifies the order of proxy
  construction and SDK initialisation attempts as a trace, and external
  SDK init success/failure is supplied as an explicit fault-injection
  argument.
* `JsHeap` models just enough of JavaScript reference semantics to state
  the freshness of the object allocated by `return { ...this.userContext }`.
-/

namespace UA

/-- JavaScript values, as far as the analytics payloads need them. -/
inductive JSValue where
  | vNull
  | vUndefined
  | vStr (s : String)
  | vNum (n : Int)
  | vBool (b : Bool)
  | vObj (fields : List (String × JSValue))

/-- A JavaScript plain object: fields in insertion order. -/
abbrev Obj := List (String × JSValue)

/-- Non-recursive test used where the source compares against `undefined`. -/
def JSValue.isUndef : JSValue → Bool
  | .vUndefined => true
  | _ => false

/-- Property read `o[k]`: `none` models an absent key (i.e. `undefined`). -/
def objLookup (o : Obj) (k : String) : Option JSValue :=
  (o.find? (fun kv => kv.1 == k)).map (·.2)

/-- Whether the object has the key at all. -/
def objHas (o : Obj) (k : String) : Bool :=
  (objLookup o k).isSome

/-- Object spread `{ ...a, ...b }`: keys of `a` in order (values overridden
by `b` on collision), then the keys of `b` that are new, in order. -/
def objSpread (a b : Obj) : Obj :=
  a.map (fun kv => (kv.1, (objLookup b kv.1).getD kv.2))
    ++ b.filter (fun kv => !objHas a kv.1)

/-- `delete o[k]` (the key is removed; other fields keep their order). -/
def objDelete (o : Obj) (k : String) : Obj :=
  o.filter (fun kv => kv.1 != k)

/-- Minimal JSON string escaping (backslash and double quote). -/
def jsonEscape (s : String) : String :=
  s.foldl (fun acc c =>
    if c = '\\' then acc ++ "\\\\"
    else if c = '\"' then acc ++ "\\\"" else acc.push c) ""

def jsonQuote (s : String) : String := "\"" ++ jsonEscape s ++ "\""

/-- `JSON.stringify` on the embedded value universe (object fields holding
`undefined` are omitted, as in JavaScript). -/
def jsonStringify : JSValue → String
  | .vStr s => jsonQuote s
  | .vNum n => toString n
  | .vBool b => cond b "true" "false"
  | .vNull => "null"
  | .vUndefined => "null"
  | .vObj fields => "\x7b" ++ String.intercalate ","
      (jsonFields fields) ++ "\x7d"
where
  jsonFields : List (String × JSValue) → List String
  | [] => []
  | (k, v) :: rest =>
    if v.isUndef then jsonFields rest
    else (jsonQuote k ++ ":" ++ jsonStringify v) :: jsonFields rest

/-- `String(value)` for the primitive values. -/
def jsToString : JSValue → String
  | .vStr s => s
  | .vNum n => toString n
  | .vBool b => cond b "true" "false"
  | .vNull => "null"
  | .vUndefined => "undefined"
  | .vObj f => jsonStringify (.vObj f)

/-- `BaseProvider.safeString`: null/undefined become the empty string,
objects are JSON-serialised, everything else is converted with `String`. -/
def safeString (value : JSValue) : String :=
  match value with
  | .vNull => ""
  | .vUndefined => ""
  | .vObj f => jsonStringify (.vObj f)
  | v => jsToString v

/-- `BaseProvider.stringifyProperties`: a falsy argument yields `{}`;
otherwise every entry whose value is not `undefined` is kept with its
`safeString` image. -/
def stringifyProperties (properties : Option Obj) : Obj :=
  match properties with
  | none => []
  | some props =>
    props.filterMap (fun kv =>
      if kv.2.isUndef then none
      else some (kv.1, JSValue.vStr (safeString kv.2)))


-- ### Configuration (`index.d.ts` / `utils/helpers.js`)

inductive Platform where
  | web
  | native
  deriving DecidableEq

/-- The fields of the countly block that validation and adapter init read. -/
structure CountlyConfig where
  serverUrl : Option String := none
  appKey : Option String := none
  debug : Option Bool := none

/-- The fields of the posthog block that validation and adapter init read. -/
structure PostHogConfig where
  apiKey : Option String := none
  debug : Option Bool := none

structure Config where
  platform : Option Platform := none
  debug : Option Bool := none
  trackScreenViews : Option Bool := none
  countly : Option CountlyConfig := none
  posthog : Option PostHogConfig := none

/-- JavaScript truthiness of a possibly-absent string field
(absent, `null` and `""` are falsy). -/
def strTruthy : Option String → Bool
  | some s => !(s == "")
  | none => false

structure ValidationResult where
  valid : Bool
  errors : List String

/-- `validateConfig` from `utils/helpers.js`: requires at least one provider
block, then the required fields of each configured block, accumulating the
error messages in source order. -/
def validateConfig (c : Config) : ValidationResult :=
  let errors :=
    (if c.countly.isNone && c.posthog.isNone then
      ["At least one provider (countly or posthog) must be configured"]
     else [])
    ++ (match c.countly with
        | none => []
        | some cc =>
          (if !strTruthy cc.serverUrl then ["countly.serverUrl is required"]
           else [])
          ++ (if !strTruthy cc.appKey then ["countly.appKey is required"]
              else []))
    ++ (match c.posthog with
        | none => []
        | some pc =>
          if !strTruthy pc.apiKey then ["posthog.apiKey is required"] else [])
  ⟨errors.isEmpty, errors⟩

-- ### Reified third-party SDK invocations

/-- The calls the adapters make into the wrapped SDKs; reified so theorems
can observe what each provider dispatches. -/
inductive SdkCall where
  | countlyAddEvent (key : String) (count : Nat) (segmentation : Obj)
  | countlyTrackPageview (page : String) (segmentation : Obj)
  | posthogCapture (event : String) (properties : Obj)
  | posthogRegister (properties : Obj)
  | posthogUnregister (key : String)

-- ### CountlyProviderWeb (`providers/CountlyProvider.web.js`)

structure CountlyProviderWeb where
  initialized : Bool := false
  debug : Bool := false
  config : Option CountlyConfig := none
  userContext : Obj := []

/-- `mergeWithUserContext`: `{ ...this.userContext, ...(properties || {}) }`. -/
def CountlyProviderWeb.mergeWithUserContext (st : CountlyProviderWeb)
    (properties : Option Obj) : Obj :=
  objSpread st.userContext (properties.getD [])

/-- `init`: guarded against re-entry; records config and debug, then runs the
SDK setup, whose success or failure is supplied as `sdkOk` (the SDK is an
external collaborator). On failure the error is rethrown. -/
def CountlyProviderWeb.init (st : CountlyProviderWeb) (cfg : CountlyConfig)
    (sdkOk : Bool) : Except Unit CountlyProviderWeb :=
  if st.initialized then .ok st
  else
    let st := { st with config := some cfg, debug := cfg.debug.getD false }
    if sdkOk then .ok { st with initialized := true } else .error ()

/-- `trackEvent`: no-op before init; otherwise merges the user context into
the event-local properties, stringifies, and calls `Countly.add_event`. -/
def CountlyProviderWeb.trackEvent (st : CountlyProviderWeb) (name : String)
    (properties : Option Obj) : CountlyProviderWeb × List SdkCall :=
  if !st.initialized then (st, [])
  else
    (st, [.countlyAddEvent name 1
      (stringifyProperties (some (st.mergeWithUserContext properties)))])

/-- `trackView`: same pipeline, via `Countly.track_pageview`. -/
def CountlyProviderWeb.trackView (st : CountlyProviderWeb) (viewName : String)
    (properties : Option Obj) : CountlyProviderWeb × List SdkCall :=
  if !st.initialized then (st, [])
  else
    (st, [.countlyTrackPageview viewName
      (stringifyProperties (some (st.mergeWithUserContext properties)))])

/-- `setUserContext`: no-op before init; otherwise MERGES the new properties
into the stored context (`{ ...this.userContext, ...properties }`). -/
def CountlyProviderWeb.setUserContext (st : CountlyProviderWeb)
    (properties : Obj) : CountlyProviderWeb :=
  if !st.initialized then st
  else { st with userContext := objSpread st.userContext properties }

/-- `getUserContext` returns a shallow copy of the store; its value content
is the store content (the freshness of the copy is modelled by `JsHeap`). -/
def CountlyProviderWeb.getUserContext (st : CountlyProviderWeb) : Obj :=
  st.userContext

/-- `clearUserContext` (no init guard in the source). -/
def CountlyProviderWeb.clearUserContext (st : CountlyProviderWeb) :
    CountlyProviderWeb :=
  { st with userContext := [] }

-- ### PostHogProviderWeb (second half of `providers/CountlyProvider.js` blob)

structure PostHogProviderWeb where
  initialized : Bool := false
  debug : Bool := false
  config : Option PostHogConfig := none
  registeredProperties : Obj := []
  /-- The wrapped `posthog-js` client flag cache (external SDK state). -/
  sdkFlags : Obj := []

def PostHogProviderWeb.init (st : PostHogProviderWeb) (cfg : PostHogConfig)
    (sdkOk : Bool) : Except Unit PostHogProviderWeb :=
  if st.initialized then .ok st
  else
    let st := { st with config := some cfg, debug := cfg.debug.getD false }
    if sdkOk then .ok { st with initialized := true } else .error ()

def PostHogProviderWeb.trackEvent (st : PostHogProviderWeb) (name : String)
    (properties : Option Obj) : PostHogProviderWeb × List SdkCall :=
  if !st.initialized then (st, [])
  else (st, [.posthogCapture name (properties.getD [])])

/-- `trackView`: `capture('$pageview', { $current_url: viewName, ...props })`. -/
def PostHogProviderWeb.trackView (st : PostHogProviderWeb) (viewName : String)
    (properties : Option Obj) : PostHogProviderWeb × List SdkCall :=
  if !st.initialized then (st, [])
  else
    (st, [.posthogCapture "$pageview"
      (objSpread [("$current_url", .vStr viewName)] (properties.getD []))])

/-- `register`: merges into the mirror store and forwards to the SDK. -/
def PostHogProviderWeb.register (st : PostHogProviderWeb) (properties : Obj) :
    PostHogProviderWeb × List SdkCall :=
  if !st.initialized then (st, [])
  else
    ({ st with registeredProperties :=
        objSpread st.registeredProperties properties },
     [.posthogRegister properties])

/-- `unregister`: deletes from the mirror store and forwards to the SDK. -/
def PostHogProviderWeb.unregister (st : PostHogProviderWeb) (key : String) :
    PostHogProviderWeb × List SdkCall :=
  if !st.initialized then (st, [])
  else
    ({ st with registeredProperties := objDelete st.registeredProperties key },
     [.posthogUnregister key])

def PostHogProviderWeb.getRegisteredProperties (st : PostHogProviderWeb) :
    Obj :=
  st.registeredProperties

/-- `clearRegisteredProperties`: unregisters every stored key then resets. -/
def PostHogProviderWeb.clearRegisteredProperties (st : PostHogProviderWeb) :
    PostHogProviderWeb × List SdkCall :=
  if !st.initialized then (st, [])
  else
    ({ st with registeredProperties := [] },
     st.registeredProperties.map (fun kv => .posthogUnregister kv.1))

/-- `getFeatureFlag`: `undefined` before init, otherwise the client value. -/
def PostHogProviderWeb.getFeatureFlag (st : PostHogProviderWeb)
    (key : String) : JSValue :=
  if !st.initialized then .vUndefined
  else (objLookup st.sdkFlags key).getD .vUndefined

def PostHogProviderWeb.getAllFeatureFlags (st : PostHogProviderWeb) : Obj :=
  if !st.initialized then [] else st.sdkFlags

-- ### Platform proxies (`CountlyProvider.js` / `PostHogProvider.js`)

/-- The Countly platform proxy: a resolved adapter (absent before `init`)
plus the debug flag recorded for forwarding. The proxy resolves the web
adapter here; the native adapter's user-context logic is identical. -/
structure CountlyProvider where
  impl : Option CountlyProviderWeb := none
  debug : Bool := false

def CountlyProvider.isInitialized (p : CountlyProvider) : Bool :=
  match p.impl with
  | some i => i.initialized
  | none => false

/-- Proxy `init`: construct the platform adapter, forward the debug flag,
then run the adapter's `init` (failure propagates to the orchestrator). -/
def CountlyProvider.init (debug : Bool) (cfg : CountlyConfig) (sdkOk : Bool) :
    Except Unit CountlyProvider :=
  let impl0 : CountlyProviderWeb := { debug := debug }
  match impl0.init cfg sdkOk with
  | .ok impl => .ok ⟨some impl, debug⟩
  | .error e => .error e

def CountlyProvider.trackView (p : CountlyProvider) (viewName : String)
    (properties : Option Obj) : CountlyProvider × List SdkCall :=
  match p.impl with
  | some i =>
    let (i2, cs) := i.trackView viewName properties
    ({ p with impl := some i2 }, cs)
  | none => (p, [])

def CountlyProvider.trackEvent (p : CountlyProvider) (name : String)
    (properties : Option Obj) : CountlyProvider × List SdkCall :=
  match p.impl with
  | some i =>
    let (i2, cs) := i.trackEvent name properties
    ({ p with impl := some i2 }, cs)
  | none => (p, [])

def CountlyProvider.setUserContext (p : CountlyProvider) (properties : Obj) :
    CountlyProvider :=
  match p.impl with
  | some i => { p with impl := some (i.setUserContext properties) }
  | none => p

/-- Proxy read: `this._impl?.getUserContext() ?? {}`. -/
def CountlyProvider.getUserContext (p : CountlyProvider) : Obj :=
  match p.impl with
  | some i => i.getUserContext
  | none => []

def CountlyProvider.clearUserContext (p : CountlyProvider) : CountlyProvider :=
  match p.impl with
  | some i => { p with impl := some i.clearUserContext }
  | none => p

structure PostHogProvider where
  impl : Option PostHogProviderWeb := none
  debug : Bool := false

def PostHogProvider.isInitialized (p : PostHogProvider) : Bool :=
  match p.impl with
  | some i => i.initialized
  | none => false

def PostHogProvider.init (debug : Bool) (cfg : PostHogConfig) (sdkOk : Bool) :
    Except Unit PostHogProvider :=
  let impl0 : PostHogProviderWeb := { debug := debug }
  match impl0.init cfg sdkOk with
  | .ok impl => .ok ⟨some impl, debug⟩
  | .error e => .error e

def PostHogProvider.trackView (p : PostHogProvider) (viewName : String)
    (properties : Option Obj) : PostHogProvider × List SdkCall :=
  match p.impl with
  | some i =>
    let (i2, cs) := i.trackView viewName properties
    ({ p with impl := some i2 }, cs)
  | none => (p, [])

def PostHogProvider.trackEvent (p : PostHogProvider) (name : String)
    (properties : Option Obj) : PostHogProvider × List SdkCall :=
  match p.impl with
  | some i =>
    let (i2, cs) := i.trackEvent name properties
    ({ p with impl := some i2 }, cs)
  | none => (p, [])

def PostHogProvider.register (p : PostHogProvider) (properties : Obj) :
    PostHogProvider × List SdkCall :=
  match p.impl with
  | some i =>
    let (i2, cs) := i.register properties
    ({ p with impl := some i2 }, cs)
  | none => (p, [])

def PostHogProvider.unregister (p : PostHogProvider) (key : String) :
    PostHogProvider × List SdkCall :=
  match p.impl with
  | some i =>
    let (i2, cs) := i.unregister key
    ({ p with impl := some i2 }, cs)
  | none => (p, [])

def PostHogProvider.getRegisteredProperties (p : PostHogProvider) : Obj :=
  match p.impl with
  | some i => i.getRegisteredProperties
  | none => []

def PostHogProvider.clearRegisteredProperties (p : PostHogProvider) :
    PostHogProvider × List SdkCall :=
  match p.impl with
  | some i =>
    let (i2, cs) := i.clearRegisteredProperties
    ({ p with impl := some i2 }, cs)
  | none => (p, [])

/-- Proxy read: `this._impl?.getFeatureFlag(key) ?? undefined`. -/
def PostHogProvider.getFeatureFlag (p : PostHogProvider) (key : String) :
    JSValue :=
  match p.impl with
  | some i => i.getFeatureFlag key
  | none => .vUndefined

def PostHogProvider.getAllFeatureFlags (p : PostHogProvider) : Obj :=
  match p.impl with
  | some i => i.getAllFeatureFlags
  | none => []

-- ### Orchestrator (`UnifiedAnalytics.js`)

/-- JavaScript `Map.get` (assoc list in insertion order). -/
def mapGet (m : List (String × String)) (k : String) : Option String :=
  (m.find? (fun kv => kv.1 == k)).map (·.2)

/-- JavaScript `Map.set`: replaces an existing key in place, else appends. -/
def mapSet (m : List (String × String)) (k v : String) :
    List (String × String) :=
  if m.any (fun kv => kv.1 == k) then
    m.map (fun kv => if kv.1 == k then (k, v) else kv)
  else m ++ [(k, v)]

/-- JavaScript `Map.delete`. -/
def mapDelete (m : List (String × String)) (k : String) :
    List (String × String) :=
  m.filter (fun kv => kv.1 != k)

/-- Events observable during `init`, in order: proxy construction and the
adapter/SDK initialisation attempt for each configured provider. -/
inductive TraceEv where
  | proxyConstructed (name : String)
  | sdkInitAttempted (name : String)

/-- The one failure `init` propagates: validation failure. The spec names
this throw `ConfigurationError`. -/
inductive InitError where
  | configurationError (errors : List String)

/-- A runtime exception escaping an orchestrator method. -/
inductive JsError where
  | typeError (msg : String)

/-- What `onFeatureFlagsChange` hands back to the caller. -/
inductive UnsubscribeResult where
  | noopFn
  | undefinedVal

/-- The orchestrator singleton state; field defaults are the constructor. -/
structure UnifiedAnalytics where
  initialized : Bool := false
  config : Option Config := none
  countlyProvider : Option CountlyProvider := none
  posthogProvider : Option PostHogProvider := none
  screenViewOverrides : List (String × String) := []
  trackScreenViews : Bool := true
  routeNameRef : Option String := none

/-- A freshly constructed orchestrator (`new UnifiedAnalytics()`). -/
def UnifiedAnalytics.new : UnifiedAnalytics := {}

/-- `this.countlyProvider?.isInitialized()`. -/
def UnifiedAnalytics.countlyIsInit (st : UnifiedAnalytics) : Bool :=
  match st.countlyProvider with
  | some p => p.isInitialized
  | none => false

/-- `this.posthogProvider?.isInitialized()`. -/
def UnifiedAnalytics.posthogIsInit (st : UnifiedAnalytics) : Bool :=
  match st.posthogProvider with
  | some p => p.isInitialized
  | none => false

structure InitOutcome where
  trace : List TraceEv
  result : Except InitError UnifiedAnalytics

/-- `UnifiedAnalytics.init`: idempotence guard, then validation (throwing
before any proxy is constructed), then per-provider construction and
initialisation with each failure caught and the failed provider reference
nulled out. `countlySdkOk` / `posthogSdkOk` inject the outcome of the
external SDK setup of each adapter. -/
def UnifiedAnalytics.init (st : UnifiedAnalytics) (config : Config)
    (countlySdkOk posthogSdkOk : Bool) : InitOutcome :=
  if st.initialized then ⟨[], .ok st⟩
  else
    let validation := validateConfig config
    if !validation.valid then
      ⟨[], .error (.configurationError validation.errors)⟩
    else
      let st := { st with
        config := some config,
        trackScreenViews := !(config.trackScreenViews == some false) }
      let (trace1, cp) :=
        match config.countly with
        | none => ([], st.countlyProvider)
        | some cc =>
          match CountlyProvider.init (config.debug.getD false) cc
              countlySdkOk with
          | .ok p =>
            ([TraceEv.proxyConstructed "countly",
              TraceEv.sdkInitAttempted "countly"], some p)
          | .error _ =>
            ([TraceEv.proxyConstructed "countly",
              TraceEv.sdkInitAttempted "countly"], none)
      let st := { st with countlyProvider := cp }
      let (trace2, pp) :=
        match config.posthog with
        | none => ([], st.posthogProvider)
        | some pc =>
          match PostHogProvider.init (config.debug.getD false) pc
              posthogSdkOk with
          | .ok p =>
            ([TraceEv.proxyConstructed "posthog",
              TraceEv.sdkInitAttempted "posthog"], some p)
          | .error _ =>
            ([TraceEv.proxyConstructed "posthog",
              TraceEv.sdkInitAttempted "posthog"], none)
      ⟨trace1 ++ trace2,
       .ok { st with posthogProvider := pp, initialized := true }⟩

def UnifiedAnalytics.isInitialized (st : UnifiedAnalytics) : Bool :=
  st.initialized

def UnifiedAnalytics.getEnabledProviders (st : UnifiedAnalytics) :
    List String :=
  (if st.countlyIsInit then ["countly"] else [])
    ++ (if st.posthogIsInit then ["posthog"] else [])

def UnifiedAnalytics.hasProvider (st : UnifiedAnalytics) (name : String) :
    Bool :=
  if name == "countly" then st.countlyIsInit
  else if name == "posthog" then st.posthogIsInit
  else false

/-- Fan-out helper: run `f` on the countly proxy iff it reports itself
initialised (the guard every dispatch site repeats in the source). -/
def UnifiedAnalytics.withCountly (st : UnifiedAnalytics)
    (f : CountlyProvider → CountlyProvider × List SdkCall) :
    UnifiedAnalytics × List SdkCall :=
  if st.countlyIsInit then
    match st.countlyProvider with
    | some p =>
      let (p2, cs) := f p
      ({ st with countlyProvider := some p2 }, cs)
    | none => (st, [])
  else (st, [])

def UnifiedAnalytics.withPosthog (st : UnifiedAnalytics)
    (f : PostHogProvider → PostHogProvider × List SdkCall) :
    UnifiedAnalytics × List SdkCall :=
  if st.posthogIsInit then
    match st.posthogProvider with
    | some p =>
      let (p2, cs) := f p
      ({ st with posthogProvider := some p2 }, cs)
    | none => (st, [])
  else (st, [])

/-- `trackEvent` → `trackEventToProviders`: fan out to both providers. -/
def UnifiedAnalytics.trackEvent (st : UnifiedAnalytics) (name : String)
    (properties : Option Obj) : UnifiedAnalytics × List SdkCall :=
  let (st1, cs1) := st.withCountly (fun p => p.trackEvent name properties)
  let (st2, cs2) := st1.withPosthog (fun p => p.trackEvent name properties)
  (st2, cs1 ++ cs2)

/-- `trackView`: short-circuits when screen-view tracking is disabled,
otherwise fans out to both providers. -/
def UnifiedAnalytics.trackView (st : UnifiedAnalytics) (viewName : String)
    (properties : Option Obj) : UnifiedAnalytics × List SdkCall :=
  if !st.trackScreenViews then (st, [])
  else
    let (st1, cs1) := st.withCountly (fun p => p.trackView viewName properties)
    let (st2, cs2) :=
      st1.withPosthog (fun p => p.trackView viewName properties)
    (st2, cs1 ++ cs2)

def UnifiedAnalytics.setScreenViewOverride (st : UnifiedAnalytics)
    (screenName customName : String) : UnifiedAnalytics :=
  { st with screenViewOverrides :=
      mapSet st.screenViewOverrides screenName customName }

def UnifiedAnalytics.clearScreenViewOverride (st : UnifiedAnalytics)
    (screenName : String) : UnifiedAnalytics :=
  { st with screenViewOverrides :=
      mapDelete st.screenViewOverrides screenName }

def UnifiedAnalytics.setTrackScreenViews (st : UnifiedAnalytics)
    (enabled : Bool) : UnifiedAnalytics :=
  { st with trackScreenViews := enabled }

/-- `setGlobalProperties`: countly `setUserContext`, posthog `register`. -/
def UnifiedAnalytics.setGlobalProperties (st : UnifiedAnalytics)
    (properties : Obj) : UnifiedAnalytics × List SdkCall :=
  let (st1, cs1) :=
    st.withCountly (fun p => (p.setUserContext properties, []))
  let (st2, cs2) := st1.withPosthog (fun p => p.register properties)
  (st2, cs1 ++ cs2)

/-- `getGlobalProperties`: countly first, then posthog, else `{}`. -/
def UnifiedAnalytics.getGlobalProperties (st : UnifiedAnalytics) : Obj :=
  if st.countlyIsInit then
    match st.countlyProvider with
    | some p => p.getUserContext
    | none => []
  else if st.posthogIsInit then
    match st.posthogProvider with
    | some p => p.getRegisteredProperties
    | none => []
  else []

def UnifiedAnalytics.clearGlobalProperties (st : UnifiedAnalytics) :
    UnifiedAnalytics × List SdkCall :=
  let (st1, cs1) := st.withCountly (fun p => (p.clearUserContext, []))
  let (st2, cs2) := st1.withPosthog (fun p => p.clearRegisteredProperties)
  (st2, cs1 ++ cs2)

/-- `removeGlobalProperty`: for countly, read a copy of the user context,
delete the key from the copy and write the copy back with `setUserContext`;
for posthog, `unregister`. -/
def UnifiedAnalytics.removeGlobalProperty (st : UnifiedAnalytics)
    (key : String) : UnifiedAnalytics × List SdkCall :=
  let (st1, cs1) :=
    if st.countlyIsInit then
      match st.countlyProvider with
      | some p =>
        let current := p.getUserContext
        let current2 := objDelete current key
        (({ st with countlyProvider := some (p.setUserContext current2) } :
            UnifiedAnalytics), ([] : List SdkCall))
      | none => (st, [])
    else (st, [])
  let (st2, cs2) := st1.withPosthog (fun p => p.unregister key)
  (st2, cs1 ++ cs2)

/-- `getFeatureFlag`: posthog when active; otherwise the source reads
`this.config.debug`, which throws a `TypeError` when `init` has never run
(config still `null`), and returns `null` otherwise. -/
def UnifiedAnalytics.getFeatureFlag (st : UnifiedAnalytics) (key : String) :
    Except JsError JSValue :=
  if st.posthogIsInit then
    match st.posthogProvider with
    | some p => .ok (p.getFeatureFlag key)
    | none => .ok .vUndefined
  else
    match st.config with
    | none => .error (.typeError "Cannot read properties of null (reading debug)")
    | some _ => .ok .vNull

def UnifiedAnalytics.isFeatureEnabled (st : UnifiedAnalytics) (key : String) :
    Bool :=
  if st.posthogIsInit then
    match st.posthogProvider with
    | some p =>
      match p.impl with
      | some i =>
        if !i.initialized then false
        else
          match objLookup i.sdkFlags key with
          | some (.vBool b) => b
          | _ => false
      | none => false
    | none => false
  else false

def UnifiedAnalytics.getAllFeatureFlags (st : UnifiedAnalytics) : Obj :=
  if st.posthogIsInit then
    match st.posthogProvider with
    | some p => p.getAllFeatureFlags
    | none => []
  else []

/-- `onFeatureFlagsChange`: forwards to posthog when active (whose proxy
returns `undefined`), else returns the no-op unsubscribe `() => {}`. -/
def UnifiedAnalytics.onFeatureFlagsChange (st : UnifiedAnalytics) :
    UnsubscribeResult :=
  if st.posthogIsInit then .undefinedVal else .noopFn

/-- The `onStateChange` handler from `createNavigationHandlers`:
`navRoute` is `navigationRef.current?.getCurrentRoute()?.name`. -/
def UnifiedAnalytics.onStateChange (st : UnifiedAnalytics)
    (navRoute : Option String) : UnifiedAnalytics × List SdkCall :=
  let previousRouteName := st.routeNameRef
  let currentRouteName := navRoute
  let (st2, cs) :=
    if (previousRouteName != currentRouteName)
        && strTruthy currentRouteName then
      match currentRouteName with
      | some route =>
        match mapGet st.screenViewOverrides route with
        | some customName =>
          if customName != "" then
            let (s2, cs) := st.trackView customName none
            ({ s2 with screenViewOverrides :=
                mapDelete s2.screenViewOverrides route }, cs)
          else st.trackView route none
        | none => st.trackView route none
      | none => (st, [])
    else (st, [])
  ({ st2 with routeNameRef := currentRouteName }, cs)

/-- The `onRouteChange` handler from `createWebNavigationHandlers`;
`previousPath` is the closure-captured path, returned updated. -/
def UnifiedAnalytics.onRouteChange (st : UnifiedAnalytics)
    (previousPath : Option String) (url : String) :
    (UnifiedAnalytics × Option String) × List SdkCall :=
  if (url != "") && (some url != previousPath) then
    match mapGet st.screenViewOverrides url with
    | some customName =>
      if customName != "" then
        let (s2, cs) := st.trackView customName none
        (({ s2 with screenViewOverrides :=
            mapDelete s2.screenViewOverrides url }, some url), cs)
      else ((st.trackView url none).map (fun s => (s, some url)) id)
    | none => ((st.trackView url none).map (fun s => (s, some url)) id)
  else ((st, previousPath), [])

-- ### Heap fragment for reference semantics of `{ ...store }`

/-- A heap of JavaScript objects; a reference is an index. -/
structure JsHeap where
  objs : List Obj

def JsHeap.read (h : JsHeap) (r : Nat) : Obj :=
  h.objs.getD r []

def JsHeap.write (h : JsHeap) (r : Nat) (o : Obj) : JsHeap :=
  ⟨h.objs.set r o⟩

def JsHeap.alloc (h : JsHeap) (o : Obj) : JsHeap × Nat :=
  (⟨h.objs ++ [o]⟩, h.objs.length)

/-- `getUserContext` / `getRegisteredProperties`: `return { ...store }`
allocates a fresh object holding a copy of the store referenced by
`ctxRef`. -/
def getUserContextAlloc (h : JsHeap) (ctxRef : Nat) : JsHeap × Nat :=
  h.alloc (h.read ctxRef)

-- ### Observables used to state the claims

/-- The user-context store the countly dispatch path reads
(`{}` when the proxy or adapter is absent). -/
def UnifiedAnalytics.countlyCtx (st : UnifiedAnalytics) : Obj :=
  match st.countlyProvider with
  | some p => p.getUserContext
  | none => []

/-- The page names of the countly page-view calls in a dispatch list:
the views the countly backend is actually asked to record. -/
def countlyViews (cs : List SdkCall) : List String :=
  cs.filterMap (fun c =>
    match c with
    | .countlyTrackPageview page _ => some page
    | _ => none)

/-- The dispatch list an open-gated `trackView v` (with no event-local
properties) produces: one call per active provider. -/
def viewCalls (st : UnifiedAnalytics) (v : String) : List SdkCall :=
  (if st.countlyIsInit then
    [SdkCall.countlyTrackPageview v
      (stringifyProperties (some (objSpread st.countlyCtx [])))]
   else [])
  ++ (if st.posthogIsInit then
    [SdkCall.posthogCapture "$pageview"
      (objSpread [("$current_url", .vStr v)] [])]
   else [])

-- ### Concrete states used by counterexamples and witnesses

def demoCountlyCfg : CountlyConfig :=
  { serverUrl := some "https://countly.example", appKey := some "app-key" }

/-- A countly adapter that completed `init` with an empty user context. -/
def demoCountlyImpl : CountlyProviderWeb :=
  { initialized := true, config := some demoCountlyCfg }

/-- An orchestrator state after a successful countly-only `init`. -/
def demoCountlyOnly : UnifiedAnalytics :=
  { initialized := true,
    config := some { countly := some demoCountlyCfg },
    countlyProvider := some ⟨some demoCountlyImpl, false⟩ }

/-- `demoCountlyOnly` with the override `("Login", "")` registered and the
current route `"Home"` (used against C4). -/
def c4Demo : UnifiedAnalytics :=
  { demoCountlyOnly with
    screenViewOverrides := [("Login", "")],
    routeNameRef := some "Home" }

/-- Like `c4Demo` but with screen-view tracking disabled and a distinct
override key (used against C9). -/
def c9Demo : UnifiedAnalytics :=
  { demoCountlyOnly with
    screenViewOverrides := [("Settings", "")],
    trackScreenViews := false,
    routeNameRef := some "Home" }

/-- An initialised countly adapter holding two stored context keys, one of
which collides with the event-local properties of the C5 witness. -/
def c5Demo : CountlyProviderWeb :=
  { initialized := true, config := some demoCountlyCfg,
    userContext := [("role", .vStr "admin"), ("plan", .vStr "old")] }

-- ### Association-list lemmas used by the theorems below

theorem objLookup_nil (k : String) : objLookup [] k = none := rfl

theorem objLookup_cons (k0 : String) (v0 : JSValue) (o : Obj) (k : String) :
    objLookup ((k0, v0) :: o) k =
      if k0 == k then some v0 else objLookup o k := by
  by_cases h : k0 == k <;> simp [objLookup, List.find?_cons, h]

theorem objLookup_append (a b : Obj) (k : String) :
    objLookup (a ++ b) k =
      match objLookup a k with
      | some v => some v
      | none => objLookup b k := by
  induction a with
  | nil => simp [objLookup_nil]
  | cons kv rest ih =>
    obtain ⟨k0, v0⟩ := kv
    rw [List.cons_append, objLookup_cons, objLookup_cons]
    by_cases h : k0 == k
    · simp [h]
    · simp [h, ih]

theorem objLookup_map_override (a b : Obj) (k : String) :
    objLookup (a.map (fun kv => (kv.1, (objLookup b kv.1).getD kv.2))) k =
      (objLookup a k).map (fun v => (objLookup b k).getD v) := by
  induction a with
  | nil => simp [objLookup_nil]
  | cons kv rest ih =>
    obtain ⟨k0, v0⟩ := kv
    rw [List.map_cons]
    dsimp only
    rw [objLookup_cons, objLookup_cons]
    by_cases h : k0 == k
    · have hk : k0 = k := by simpa using h
      subst hk
      simp [h]
    · simp [h, ih]

theorem objLookup_filter_key (b : Obj) (p : String → Bool) (k : String) :
    objLookup (b.filter (fun kv => p kv.1)) k =
      if p k then objLookup b k else none := by
  induction b with
  | nil => simp [objLookup_nil]
  | cons kv rest ih =>
    obtain ⟨k0, v0⟩ := kv
    by_cases hpk : p k0
    · rw [List.filter_cons_of_pos (by simpa using hpk),
        objLookup_cons, objLookup_cons]
      by_cases h : k0 == k
      · have hk : k0 = k := by simpa using h
        subst hk
        simp [h, hpk]
      · simp [h, ih]
    · rw [List.filter_cons_of_neg (by simpa using hpk), objLookup_cons]
      by_cases h : k0 == k
      · have hk : k0 = k := by simpa using h
        subst hk
        simp [hpk, ih]
      · simp [h, ih]

/-- Spread lookup law: the right operand wins on every key collision and
keys only on the left are kept. -/
theorem objLookup_spread (a b : Obj) (k : String) :
    objLookup (objSpread a b) k =
      match objLookup b k with
      | some v => some v
      | none => objLookup a k := by
  unfold objSpread
  rw [objLookup_append, objLookup_map_override]
  have hfil : objLookup (b.filter (fun kv => !objHas a kv.1)) k
      = if !objHas a k then objLookup b k else none :=
    objLookup_filter_key b (fun s => !objHas a s) k
  rw [hfil]
  unfold objHas
  cases ha : objLookup a k with
  | none => cases hb : objLookup b k <;> simp [ha, hb]
  | some va => cases hb : objLookup b k <;> simp [ha, hb]

theorem objLookup_delete_self (o : Obj) (k : String) :
    objLookup (objDelete o k) k = none := by
  unfold objDelete
  induction o with
  | nil => simp [objLookup_nil]
  | cons kv rest ih =>
    obtain ⟨k0, v0⟩ := kv
    by_cases h : k0 == k
    · have hk : k0 = k := by simpa using h
      rw [List.filter_cons_of_neg (by simp [hk])]
      exact ih
    · rw [List.filter_cons_of_pos (by simpa using h), objLookup_cons]
      simp [h, ih]

theorem validateConfig_valid_eq (c : Config) :
    (validateConfig c).valid = (validateConfig c).errors.isEmpty := rfl

theorem mapGet_mapDelete_self (m : List (String × String)) (k : String) :
    mapGet (mapDelete m k) k = none := by
  unfold mapDelete mapGet
  induction m with
  | nil => rfl
  | cons kv rest ih =>
    obtain ⟨k0, v0⟩ := kv
    by_cases h : k0 == k
    · have hk : k0 = k := by simpa using h
      rw [List.filter_cons_of_neg (by simp [hk])]
      exact ih
    · rw [List.filter_cons_of_pos (by simpa using h)]
      simp only [List.find?_cons]
      simp only [show ((fun kv => kv.1 == k) (k0, v0)) = (k0 == k) from rfl, h]
      exact ih

/-- With the gate open, `trackView` leaves the orchestrator state unchanged
and dispatches exactly one call per active provider, built from that
provider's own store merged with the event-local properties. -/
theorem trackView_spec (st : UnifiedAnalytics) (v : String) (p : Option Obj)
    (h : st.trackScreenViews = true) :
    st.trackView v p =
      (st,
        (if st.countlyIsInit then
          [SdkCall.countlyTrackPageview v
            (stringifyProperties
              (some (objSpread st.countlyCtx (p.getD []))))]
         else [])
        ++ (if st.posthogIsInit then
          [SdkCall.posthogCapture "$pageview"
            (objSpread [("$current_url", .vStr v)] (p.getD []))]
         else [])) := by
  obtain ⟨si, sc, scp, spp, sso, stv, srn⟩ := st
  simp only at h
  subst h
  cases scp with
  | none =>
    cases spp with
    | none =>
      simp [UnifiedAnalytics.trackView, UnifiedAnalytics.withCountly,
        UnifiedAnalytics.withPosthog, UnifiedAnalytics.countlyIsInit,
        UnifiedAnalytics.posthogIsInit, UnifiedAnalytics.countlyCtx]
    | some pp =>
      cases hpi : pp.impl with
      | none =>
        simp [UnifiedAnalytics.trackView, UnifiedAnalytics.withCountly,
          UnifiedAnalytics.withPosthog, UnifiedAnalytics.countlyIsInit,
          UnifiedAnalytics.posthogIsInit, UnifiedAnalytics.countlyCtx,
          PostHogProvider.isInitialized, hpi]
      | some pi =>
        obtain ⟨ppi, ppd⟩ := pp
        simp only at hpi
        subst hpi
        cases hi : pi.initialized <;>
          simp [UnifiedAnalytics.trackView, UnifiedAnalytics.withCountly,
            UnifiedAnalytics.withPosthog, UnifiedAnalytics.countlyIsInit,
            UnifiedAnalytics.posthogIsInit, UnifiedAnalytics.countlyCtx,
            PostHogProvider.isInitialized, PostHogProvider.trackView,
            PostHogProviderWeb.trackView, hi]
  | some cp =>
    cases hci : cp.impl with
    | none =>
      cases spp with
      | none =>
        simp [UnifiedAnalytics.trackView, UnifiedAnalytics.withCountly,
          UnifiedAnalytics.withPosthog, UnifiedAnalytics.countlyIsInit,
          UnifiedAnalytics.posthogIsInit, UnifiedAnalytics.countlyCtx,
          CountlyProvider.isInitialized, hci]
      | some pp =>
        cases hpi : pp.impl with
        | none =>
          simp [UnifiedAnalytics.trackView, UnifiedAnalytics.withCountly,
            UnifiedAnalytics.withPosthog, UnifiedAnalytics.countlyIsInit,
            UnifiedAnalytics.posthogIsInit, UnifiedAnalytics.countlyCtx,
            CountlyProvider.isInitialized, PostHogProvider.isInitialized,
            hci, hpi]
        | some pi =>
          obtain ⟨ppi, ppd⟩ := pp
          simp only at hpi
          subst hpi
          cases hi : pi.initialized <;>
            simp [UnifiedAnalytics.trackView, UnifiedAnalytics.withCountly,
              UnifiedAnalytics.withPosthog, UnifiedAnalytics.countlyIsInit,
              UnifiedAnalytics.posthogIsInit, UnifiedAnalytics.countlyCtx,
              CountlyProvider.isInitialized, PostHogProvider.isInitialized,
              PostHogProvider.trackView, PostHogProviderWeb.trackView,
              hci, hi]
    | some ci =>
      obtain ⟨cpi, cpd⟩ := cp
      simp only at hci
      subst hci
      cases hc : ci.initialized with
      | false =>
        cases spp with
        | none =>
          simp [UnifiedAnalytics.trackView, UnifiedAnalytics.withCountly,
            UnifiedAnalytics.withPosthog, UnifiedAnalytics.countlyIsInit,
            UnifiedAnalytics.posthogIsInit, UnifiedAnalytics.countlyCtx,
            CountlyProvider.isInitialized, hc]
        | some pp =>
          cases hpi : pp.impl with
          | none =>
            simp [UnifiedAnalytics.trackView, UnifiedAnalytics.withCountly,
              UnifiedAnalytics.withPosthog, UnifiedAnalytics.countlyIsInit,
              UnifiedAnalytics.posthogIsInit, UnifiedAnalytics.countlyCtx,
              CountlyProvider.isInitialized, PostHogProvider.isInitialized,
              hc, hpi]
          | some pi =>
            obtain ⟨ppi, ppd⟩ := pp
            simp only at hpi
            subst hpi
            cases hi : pi.initialized <;>
              simp [UnifiedAnalytics.trackView, UnifiedAnalytics.withCountly,
                UnifiedAnalytics.withPosthog, UnifiedAnalytics.countlyIsInit,
                UnifiedAnalytics.posthogIsInit, UnifiedAnalytics.countlyCtx,
                CountlyProvider.isInitialized, PostHogProvider.isInitialized,
                PostHogProvider.trackView, PostHogProviderWeb.trackView,
                hc, hi]
      | true =>
        cases spp with
        | none =>
          simp [UnifiedAnalytics.trackView, UnifiedAnalytics.withCountly,
            UnifiedAnalytics.withPosthog, UnifiedAnalytics.countlyIsInit,
            UnifiedAnalytics.posthogIsInit, UnifiedAnalytics.countlyCtx,
            CountlyProvider.isInitialized, CountlyProvider.trackView,
            CountlyProviderWeb.trackView,
            CountlyProviderWeb.mergeWithUserContext,
            CountlyProviderWeb.getUserContext, CountlyProvider.getUserContext, hc]
        | some pp =>
          cases hpi : pp.impl with
          | none =>
            simp [UnifiedAnalytics.trackView, UnifiedAnalytics.withCountly,
              UnifiedAnalytics.withPosthog, UnifiedAnalytics.countlyIsInit,
              UnifiedAnalytics.posthogIsInit, UnifiedAnalytics.countlyCtx,
              CountlyProvider.isInitialized, PostHogProvider.isInitialized,
              CountlyProvider.trackView, CountlyProviderWeb.trackView,
              CountlyProviderWeb.mergeWithUserContext,
              CountlyProviderWeb.getUserContext, CountlyProvider.getUserContext, hc, hpi]
          | some pi =>
            obtain ⟨ppi, ppd⟩ := pp
            simp only at hpi
            subst hpi
            cases hi : pi.initialized <;>
              simp [UnifiedAnalytics.trackView, UnifiedAnalytics.withCountly,
                UnifiedAnalytics.withPosthog, UnifiedAnalytics.countlyIsInit,
                UnifiedAnalytics.posthogIsInit, UnifiedAnalytics.countlyCtx,
                CountlyProvider.isInitialized, PostHogProvider.isInitialized,
                CountlyProvider.trackView, CountlyProviderWeb.trackView,
                CountlyProviderWeb.mergeWithUserContext,
                CountlyProviderWeb.getUserContext, CountlyProvider.getUserContext,
                PostHogProvider.trackView, PostHogProviderWeb.trackView,
                hc, hi]

theorem mapGet_mapDelete_none (m : List (String × String)) (r s : String)
    (h : mapGet m s = none) : mapGet (mapDelete m r) s = none := by
  unfold mapDelete
  unfold mapGet at h ⊢
  induction m with
  | nil => rfl
  | cons kv rest ih =>
    obtain ⟨k0, v0⟩ := kv
    by_cases hks : (k0 == s) = true
    · exfalso
      simp [List.find?_cons, hks] at h
    · have h2 : Option.map (fun x => x.2)
          (List.find? (fun kv => kv.1 == s) rest) = none := by
        simpa [List.find?_cons, hks] using h
      by_cases hkr : (k0 != r) = true
      · rw [List.filter_cons_of_pos (by simpa using hkr)]
        simpa [List.find?_cons, hks] using ih h2
      · rw [List.filter_cons_of_neg (by simpa using hkr)]
        exact ih h2

theorem countlyViews_viewCalls (st : UnifiedAnalytics) (v : String) :
    countlyViews (viewCalls st v) =
      (if st.countlyIsInit then [v] else []) := by
  unfold viewCalls countlyViews
  by_cases hc : st.countlyIsInit <;> by_cases hp : st.posthogIsInit <;>
    simp [hc, hp, List.filterMap_cons]

theorem trackView_gate_closed (st : UnifiedAnalytics) (v : String)
    (p : Option Obj) (h : st.trackScreenViews = false) :
    st.trackView v p = (st, []) := by
  unfold UnifiedAnalytics.trackView
  simp [h]

/-- A transition to `s` when a truthy override is registered: the override
name is tracked and the entry is deleted. -/
theorem onStateChange_override (st : UnifiedAnalytics) (s custom : String)
    (hTrack : st.trackScreenViews = true)
    (hprev : st.routeNameRef ≠ some s) (hs : s ≠ "")
    (hOv : mapGet st.screenViewOverrides s = some custom)
    (hcu : custom ≠ "") :
    st.onStateChange (some s) =
      ({ st with
          screenViewOverrides := mapDelete st.screenViewOverrides s,
          routeNameRef := some s },
        viewCalls st custom) := by
  have hbne : (st.routeNameRef != some s) = true := by simpa using hprev
  have hst : strTruthy (some s) = true := by
    simp [strTruthy]
    exact hs
  have hcub : (custom != "") = true := by simpa using hcu
  have htv := trackView_spec st custom none hTrack
  simp only [UnifiedAnalytics.onStateChange, hbne, hst, Bool.and_self,
    if_true, hOv, hcub, htv]
  rfl

/-- Same, but with the screen-view gate closed: nothing is dispatched, yet
the override entry is still deleted. -/
theorem onStateChange_override_gateClosed (st : UnifiedAnalytics)
    (s custom : String)
    (hTrack : st.trackScreenViews = false)
    (hprev : st.routeNameRef ≠ some s) (hs : s ≠ "")
    (hOv : mapGet st.screenViewOverrides s = some custom)
    (hcu : custom ≠ "") :
    st.onStateChange (some s) =
      ({ st with
          screenViewOverrides := mapDelete st.screenViewOverrides s,
          routeNameRef := some s }, []) := by
  have hbne : (st.routeNameRef != some s) = true := by simpa using hprev
  have hst : strTruthy (some s) = true := by
    simp [strTruthy]
    exact hs
  have hcub : (custom != "") = true := by simpa using hcu
  have htv := trackView_gate_closed st custom none hTrack
  simp only [UnifiedAnalytics.onStateChange, hbne, hst, Bool.and_self,
    if_true, hOv, hcub, htv]

/-- A transition to `s` with no override (or a falsy one): the raw route
name is tracked and the override map is untouched. -/
theorem onStateChange_plain (st : UnifiedAnalytics) (s : String)
    (hTrack : st.trackScreenViews = true)
    (hprev : st.routeNameRef ≠ some s) (hs : s ≠ "")
    (hOv : mapGet st.screenViewOverrides s = none
         ∨ mapGet st.screenViewOverrides s = some "") :
    st.onStateChange (some s) =
      ({ st with routeNameRef := some s }, viewCalls st s) := by
  have hbne : (st.routeNameRef != some s) = true := by simpa using hprev
  have hst : strTruthy (some s) = true := by
    simp [strTruthy]
    exact hs
  have htv := trackView_spec st s none hTrack
  rcases hOv with hOv | hOv
  · simp only [UnifiedAnalytics.onStateChange, hbne, hst, Bool.and_self,
      if_true, hOv, htv]
    rfl
  · simp only [UnifiedAnalytics.onStateChange, hbne, hst, Bool.and_self,
      if_true, hOv, htv, bne_self_eq_false, Bool.false_eq_true, if_false]
    rfl

/-- A non-transition (same route, or a falsy route name): only the stored
route reference is updated. -/
theorem onStateChange_skip (st : UnifiedAnalytics) (nav : Option String)
    (hcond : ((st.routeNameRef != nav) && strTruthy nav) = false) :
    st.onStateChange nav = ({ st with routeNameRef := nav }, []) := by
  simp only [UnifiedAnalytics.onStateChange, hcond, Bool.false_eq_true,
    if_false]

-- ### Claim theorems

/-- C1: with both provider blocks configured and carrying their required
fields, a first `init` in which exactly one adapter's SDK setup throws
still resolves (no exception escapes), nulls out the failed provider's
proxy reference, and reports exactly the surviving provider in
`getEnabledProviders`. -/
theorem init_isolates_provider_failure
    (st : UnifiedAnalytics) (cfg : Config) (cc : CountlyConfig)
    (pc : PostHogConfig) (sdkC sdkP : Bool)
    (h0 : st.initialized = false)
    (h1 : cfg.countly = some cc)
    (h2 : strTruthy cc.serverUrl = true)
    (h3 : strTruthy cc.appKey = true)
    (h4 : cfg.posthog = some pc)
    (h5 : strTruthy pc.apiKey = true)
    (h6 : sdkC ≠ sdkP) :
    ∃ st2, (st.init cfg sdkC sdkP).result = .ok st2 ∧
      st2.getEnabledProviders = (if sdkC then ["countly"] else ["posthog"]) ∧
      (sdkC = false → st2.countlyProvider = none) ∧
      (sdkP = false → st2.posthogProvider = none) := by
  have hv : validateConfig cfg = ⟨true, []⟩ := by
    simp [validateConfig, h1, h4, h2, h3, h5]
  obtain ⟨si, sc, scp, spp, sso, stv, srn⟩ := st
  simp only at h0
  subst h0
  cases sdkC with
  | false =>
    cases sdkP with
    | false => exact absurd rfl h6
    | true =>
      refine ⟨⟨true, some cfg, none,
        some ⟨some ⟨true, pc.debug.getD false, some pc, [], []⟩,
          cfg.debug.getD false⟩,
        sso, !(cfg.trackScreenViews == some false), srn⟩, ?_, ?_, ?_, ?_⟩
      · simp [UnifiedAnalytics.init, hv, h1, h4, CountlyProvider.init,
          CountlyProviderWeb.init, PostHogProvider.init,
          PostHogProviderWeb.init]
      · simp [UnifiedAnalytics.getEnabledProviders,
          UnifiedAnalytics.countlyIsInit, UnifiedAnalytics.posthogIsInit,
          CountlyProvider.isInitialized, PostHogProvider.isInitialized]
      · intro _; rfl
      · intro h; cases h
  | true =>
    cases sdkP with
    | true => exact absurd rfl h6
    | false =>
      refine ⟨⟨true, some cfg,
        some ⟨some ⟨true, cc.debug.getD false, some cc, []⟩,
          cfg.debug.getD false⟩,
        none, sso, !(cfg.trackScreenViews == some false), srn⟩,
        ?_, ?_, ?_, ?_⟩
      · simp [UnifiedAnalytics.init, hv, h1, h4, CountlyProvider.init,
          CountlyProviderWeb.init, PostHogProvider.init,
          PostHogProviderWeb.init]
      · simp [UnifiedAnalytics.getEnabledProviders,
          UnifiedAnalytics.countlyIsInit, UnifiedAnalytics.posthogIsInit,
          CountlyProvider.isInitialized, PostHogProvider.isInitialized]
      · intro h; cases h
      · intro _; rfl

/-- Witness for C1 at a concrete config with the countly adapter failing. -/
theorem init_isolates_provider_failure_witness :
    ∃ st2,
      (UnifiedAnalytics.new.init
        { countly := some { serverUrl := some "https://countly.example",
                            appKey := some "app-key" },
          posthog := some { apiKey := some "phc_key" } }
        false true).result = .ok st2 ∧
      st2.getEnabledProviders =
        (if false then ["countly"] else ["posthog"]) ∧
      (false = false → st2.countlyProvider = none) ∧
      (true = false → st2.posthogProvider = none) :=
  init_isolates_provider_failure UnifiedAnalytics.new _ _ _ false true
    rfl rfl rfl rfl rfl rfl (by decide)

/-- C2: on a first `init`, a config with no provider block, a countly block
missing (or carrying an empty/falsy) `serverUrl` or `appKey`, or a posthog
block missing `apiKey`, is rejected with the validation
(`ConfigurationError`) failure, with an empty trace: no proxy is
constructed and no SDK initialisation is attempted before the rejection. -/
theorem init_rejects_invalid_config (st : UnifiedAnalytics) (cfg : Config)
    (sdkC sdkP : Bool)
    (h0 : st.initialized = false)
    (hbad : (cfg.countly = none ∧ cfg.posthog = none)
      ∨ (∃ cc, cfg.countly = some cc ∧
          (strTruthy cc.serverUrl = false ∨ strTruthy cc.appKey = false))
      ∨ (∃ pc, cfg.posthog = some pc ∧ strTruthy pc.apiKey = false)) :
    ∃ errs, errs ≠ [] ∧
      st.init cfg sdkC sdkP = ⟨[], .error (.configurationError errs)⟩ := by
  have herr : (validateConfig cfg).errors ≠ [] := by
    rcases hbad with ⟨hc, hp⟩ | ⟨cc, hc, hs | ha⟩ | ⟨pc, hp, ha⟩
    · simp [validateConfig, hc, hp]
    · refine List.ne_nil_of_mem
        (a := "countly.serverUrl is required") ?_
      simp [validateConfig, hc, hs]
    · refine List.ne_nil_of_mem
        (a := "countly.appKey is required") ?_
      simp [validateConfig, hc, ha]
    · refine List.ne_nil_of_mem
        (a := "posthog.apiKey is required") ?_
      simp [validateConfig, hp, ha]
  have hvalid : (validateConfig cfg).valid = false := by
    rw [validateConfig_valid_eq]
    cases e : (validateConfig cfg).errors with
    | nil => exact absurd e herr
    | cons x xs => rfl
  refine ⟨(validateConfig cfg).errors, herr, ?_⟩
  simp [UnifiedAnalytics.init, h0, hvalid]

/-- Witness for C2 at `init({})`. -/
theorem init_rejects_invalid_config_witness :
    ∃ errs, errs ≠ [] ∧
      UnifiedAnalytics.new.init {} true true =
        ⟨[], .error (.configurationError errs)⟩ :=
  init_rejects_invalid_config UnifiedAnalytics.new {} true true rfl
    (Or.inl ⟨rfl, rfl⟩)

/-- C3 (evaluating the code at the failing input): with countly active,
`setGlobalProperties({user_id: "1"})` makes `getGlobalProperties()` contain
the pair, but after `removeGlobalProperty("user_id")` the key is STILL
present: the orchestrator writes the pruned copy back through
`setUserContext`, which merges it over the unchanged store, resurrecting
the deleted key. -/
theorem removeGlobalProperty_countly_key_survives :
    UnifiedAnalytics.getGlobalProperties
        (demoCountlyOnly.setGlobalProperties [("user_id", .vStr "1")]).1
      = [("user_id", .vStr "1")] ∧
    objLookup
      (UnifiedAnalytics.getGlobalProperties
        (((demoCountlyOnly.setGlobalProperties
            [("user_id", .vStr "1")]).1.removeGlobalProperty "user_id").1))
      "user_id" = some (.vStr "1") ∧
    objLookup
      (UnifiedAnalytics.getGlobalProperties
        (((demoCountlyOnly.setGlobalProperties
            [("user_id", .vStr "1")]).1.removeGlobalProperty "user_id").1))
      "user_id" ≠ none := by
  refine ⟨rfl, rfl, ?_⟩
  intro hcontra
  rw [show objLookup
      (UnifiedAnalytics.getGlobalProperties
        (((demoCountlyOnly.setGlobalProperties
            [("user_id", .vStr "1")]).1.removeGlobalProperty "user_id").1))
      "user_id" = some (.vStr "1") from rfl] at hcontra
  exact Option.noConfusion hcontra

/-- C4 counterexample: with the registered override `("Login", "")` (an
override with an empty substitute name), tracking enabled and countly
active, the first transition to `"Login"` tracks the RAW name `"Login"`
(not the registered custom name `""`) and does NOT delete the override
entry — `if (customName)` treats the empty string as absent. -/
theorem override_empty_custom_name_ignored :
    countlyViews (c4Demo.onStateChange (some "Login")).2 = ["Login"] ∧
    countlyViews (c4Demo.onStateChange (some "Login")).2 ≠ [""] ∧
    mapGet (c4Demo.onStateChange (some "Login")).1.screenViewOverrides
      "Login" = some "" ∧
    mapGet (c4Demo.onStateChange (some "Login")).1.screenViewOverrides
      "Login" ≠ none := by
  refine ⟨rfl, ?_, rfl, ?_⟩
  · intro hcontra
    rw [show countlyViews (c4Demo.onStateChange (some "Login")).2
        = ["Login"] from rfl] at hcontra
    simp at hcontra
  · intro hcontra
    rw [show mapGet (c4Demo.onStateChange (some "Login")).1.screenViewOverrides
        "Login" = some "" from rfl] at hcontra
    exact Option.noConfusion hcontra

/-- After a detour transition to any other route `r`, a transition back to
`s` (whose override is gone) tracks the raw name `s`. -/
theorem onStateChange_detour_then_raw (st1 : UnifiedAnalytics)
    (r s : String)
    (hTrack : st1.trackScreenViews = true)
    (hC : st1.countlyIsInit = true)
    (hpr : st1.routeNameRef ≠ some r)
    (hr : r ≠ s) (hs : s ≠ "")
    (hnone : mapGet st1.screenViewOverrides s = none) :
    countlyViews
      (((st1.onStateChange (some r)).1).onStateChange (some s)).2 = [s] := by
  have hsr : (some r : Option String) ≠ some s := by simpa using hr
  by_cases hre : r = ""
  · subst hre
    have hskip : ((st1.routeNameRef != some "") && strTruthy (some ""))
        = false := by
      simp [strTruthy]
    rw [onStateChange_skip st1 (some "") hskip]
    have hfin := onStateChange_plain
      ({ st1 with routeNameRef := some "" }) s hTrack
      (by simpa using Ne.symm hs) hs (Or.inl hnone)
    rw [hfin, countlyViews_viewCalls]
    have hC2 : ({ st1 with routeNameRef := some "" } :
        UnifiedAnalytics).countlyIsInit = true := hC
    rw [hC2]
    rfl
  · cases hOvr : mapGet st1.screenViewOverrides r with
    | none =>
      rw [onStateChange_plain st1 r hTrack hpr hre (Or.inl hOvr)]
      have hfin := onStateChange_plain
        ({ st1 with routeNameRef := some r }) s hTrack hsr hs (Or.inl hnone)
      rw [hfin, countlyViews_viewCalls]
      have hC2 : ({ st1 with routeNameRef := some r } :
          UnifiedAnalytics).countlyIsInit = true := hC
      rw [hC2]
      rfl
    | some c2 =>
      by_cases hc2 : c2 = ""
      · subst hc2
        rw [onStateChange_plain st1 r hTrack hpr hre (Or.inr hOvr)]
        have hfin := onStateChange_plain
          ({ st1 with routeNameRef := some r }) s hTrack hsr hs (Or.inl hnone)
        rw [hfin, countlyViews_viewCalls]
        have hC2 : ({ st1 with routeNameRef := some r } :
            UnifiedAnalytics).countlyIsInit = true := hC
        rw [hC2]
        rfl
      · rw [onStateChange_override st1 r c2 hTrack hpr hre hOvr hc2]
        have hnone2 : mapGet
            (mapDelete st1.screenViewOverrides r) s = none :=
          mapGet_mapDelete_none st1.screenViewOverrides r s hnone
        have hfin := onStateChange_plain
          ({ st1 with
              screenViewOverrides := mapDelete st1.screenViewOverrides r,
              routeNameRef := some r }) s hTrack hsr hs (Or.inl hnone2)
        rw [hfin, countlyViews_viewCalls]
        have hC2 : ({ st1 with
            screenViewOverrides := mapDelete st1.screenViewOverrides r,
            routeNameRef := some r } :
            UnifiedAnalytics).countlyIsInit = true := hC
        rw [hC2]
        rfl

/-- C4 (amended): provided the registered custom name is non-empty
(JS-truthy), the first transition to `s` tracks exactly one view, named
`custom`, and deletes the override entry; after a detour to any other
route, a second transition to `s` (no re-registration) tracks the raw
name `s` verbatim. -/
theorem override_consumed_exactly_once
    (st : UnifiedAnalytics) (s custom r : String)
    (hTrack : st.trackScreenViews = true)
    (hC : st.countlyIsInit = true)
    (hOv : mapGet st.screenViewOverrides s = some custom)
    (hcustom : custom ≠ "")
    (hs : s ≠ "")
    (hprev : st.routeNameRef ≠ some s)
    (hr : r ≠ s) :
    countlyViews (st.onStateChange (some s)).2 = [custom] ∧
    mapGet (st.onStateChange (some s)).1.screenViewOverrides s = none ∧
    countlyViews
      (((((st.onStateChange (some s)).1).onStateChange
        (some r)).1).onStateChange (some s)).2 = [s] := by
  rw [onStateChange_override st s custom hTrack hprev hs hOv hcustom]
  refine ⟨?_, ?_, ?_⟩
  · rw [countlyViews_viewCalls, hC]
    rfl
  · exact mapGet_mapDelete_self _ _
  · exact onStateChange_detour_then_raw
      ({ st with
          screenViewOverrides := mapDelete st.screenViewOverrides s,
          routeNameRef := some s }) r s hTrack hC
      (by simpa using Ne.symm hr) hr hs
      (mapGet_mapDelete_self _ _)

/-- Witness for the amended C4 on a concrete state. -/
theorem override_consumed_exactly_once_witness :
    countlyViews
      ((demoCountlyOnly.setScreenViewOverride "Login"
          "Login-Custom").onStateChange (some "Login")).2 = ["Login-Custom"] ∧
    mapGet ((demoCountlyOnly.setScreenViewOverride "Login"
        "Login-Custom").onStateChange
        (some "Login")).1.screenViewOverrides "Login" = none ∧
    countlyViews
      ((((((demoCountlyOnly.setScreenViewOverride "Login"
          "Login-Custom").onStateChange (some "Login")).1).onStateChange
        (some "Home")).1).onStateChange (some "Login")).2 = ["Login"] :=
  override_consumed_exactly_once
    (demoCountlyOnly.setScreenViewOverride "Login" "Login-Custom")
    "Login" "Login-Custom" "Home" rfl rfl rfl
    (by decide) (by decide) (by decide) (by decide)

/-- C5: for an initialised countly adapter, `trackEvent`/`trackView`
dispatch the stringified merge of the stored user context with the
event-local properties, where event-local values win on every key
collision and context-only keys are kept. -/
theorem trackEvent_merges_user_context (st : CountlyProviderWeb)
    (h : st.initialized = true) (name : String) (p : Obj) :
    (st.trackEvent name (some p)).2 =
      [SdkCall.countlyAddEvent name 1
        (stringifyProperties (some (st.mergeWithUserContext (some p))))] ∧
    (st.trackView name (some p)).2 =
      [SdkCall.countlyTrackPageview name
        (stringifyProperties (some (st.mergeWithUserContext (some p))))] ∧
    (∀ k, objLookup (st.mergeWithUserContext (some p)) k =
      match objLookup p k with
      | some v => some v
      | none => objLookup st.userContext k) := by
  refine ⟨?_, ?_, ?_⟩
  · simp [CountlyProviderWeb.trackEvent, h]
  · simp [CountlyProviderWeb.trackView, h]
  · intro k
    simpa [CountlyProviderWeb.mergeWithUserContext] using
      objLookup_spread st.userContext p k

/-- Witness for C5: a context key survives, a colliding key is overridden
by the event-local value. -/
theorem trackEvent_merges_user_context_witness :
    (c5Demo.trackEvent "purchase" (some [("plan", .vStr "new")])).2 =
      [SdkCall.countlyAddEvent "purchase" 1
        (stringifyProperties
          (some (c5Demo.mergeWithUserContext
            (some [("plan", .vStr "new")]))))] ∧
    (c5Demo.trackView "purchase" (some [("plan", .vStr "new")])).2 =
      [SdkCall.countlyTrackPageview "purchase"
        (stringifyProperties
          (some (c5Demo.mergeWithUserContext
            (some [("plan", .vStr "new")]))))] ∧
    (∀ k, objLookup (c5Demo.mergeWithUserContext
        (some [("plan", .vStr "new")])) k =
      match objLookup [("plan", .vStr "new")] k with
      | some v => some v
      | none => objLookup c5Demo.userContext k) :=
  trackEvent_merges_user_context c5Demo rfl "purchase" [("plan", .vStr "new")]

/-- C6 (evaluating the code at the failing input): before `init` has ever
run, `isFeatureEnabled` / `getAllFeatureFlags` / `onFeatureFlagsChange` do
return the neutral defaults, but `getFeatureFlag` THROWS a `TypeError`
(the source reads `this.config.debug` while `this.config` is still null);
in a countly-only post-init state it returns null as claimed. -/
theorem getFeatureFlag_preinit_throws :
    UnifiedAnalytics.new.getFeatureFlag "new_ui"
      = .error (.typeError "Cannot read properties of null (reading debug)") ∧
    UnifiedAnalytics.new.isFeatureEnabled "new_ui" = false ∧
    UnifiedAnalytics.new.getAllFeatureFlags = [] ∧
    UnifiedAnalytics.new.onFeatureFlagsChange = .noopFn ∧
    demoCountlyOnly.getFeatureFlag "new_ui" = .ok .vNull :=
  ⟨rfl, rfl, rfl, rfl, rfl⟩

/-- C7 counterexample: a property whose value is `undefined` is DROPPED by
`stringifyProperties` (the key disappears), not kept with the empty
string. -/
theorem stringifyProperties_drops_undefined :
    stringifyProperties (some [("a", JSValue.vUndefined)]) = [] ∧
    stringifyProperties (some [("a", JSValue.vUndefined)])
      ≠ [("a", JSValue.vStr "")] := by
  refine ⟨rfl, ?_⟩
  intro hcontra
  rw [show stringifyProperties (some [("a", JSValue.vUndefined)]) = []
    from rfl] at hcontra
  exact List.noConfusion hcontra

/-- C7 (amended): `stringifyProperties` keeps exactly the keys whose value
is not `undefined`, each mapped through `safeString`; `safeString` sends
null (and undefined) to `""`, JSON-serialises objects, and applies the
JavaScript string conversion to every other value. -/
theorem stringifyProperties_spec (props : Obj) :
    stringifyProperties (some props)
        = (props.filter (fun kv => !kv.2.isUndef)).map
            (fun kv => (kv.1, JSValue.vStr (safeString kv.2))) ∧
    safeString .vNull = "" ∧
    safeString .vUndefined = "" ∧
    (∀ o, safeString (.vObj o) = jsonStringify (.vObj o)) ∧
    (∀ s, safeString (.vStr s) = jsToString (.vStr s)) ∧
    (∀ n, safeString (.vNum n) = jsToString (.vNum n)) ∧
    (∀ b, safeString (.vBool b) = jsToString (.vBool b)) := by
  refine ⟨?_, rfl, rfl, fun o => rfl, fun s => rfl, fun n => rfl,
    fun b => rfl⟩
  induction props with
  | nil => rfl
  | cons kv rest ih =>
    by_cases h : kv.2.isUndef <;>
      simp [stringifyProperties, List.filterMap_cons, List.filter_cons, h]
        <;> simpa [stringifyProperties] using ih

/-- C8: after `setTrackScreenViews(false)`, `trackView` dispatches nothing
and leaves the whole orchestrator (and every provider store) unchanged;
after `setTrackScreenViews(true)` it dispatches one call to every active
provider again, built from that provider's own store. -/
theorem setTrackScreenViews_gates_trackView (st : UnifiedAnalytics)
    (v : String) (p : Option Obj) :
    (st.setTrackScreenViews false).trackView v p
        = (st.setTrackScreenViews false, []) ∧
    (st.setTrackScreenViews true).trackView v p
        = (st.setTrackScreenViews true,
          (if (st.setTrackScreenViews true).countlyIsInit then
            [SdkCall.countlyTrackPageview v
              (stringifyProperties (some (objSpread
                (st.setTrackScreenViews true).countlyCtx (p.getD []))))]
           else [])
          ++ (if (st.setTrackScreenViews true).posthogIsInit then
            [SdkCall.posthogCapture "$pageview"
              (objSpread [("$current_url", .vStr v)] (p.getD []))]
           else [])) := by
  constructor
  · exact trackView_gate_closed _ v p rfl
  · exact trackView_spec _ v p rfl

/-- C9 counterexample: with tracking disabled and the registered override
`("Settings", "")`, the transition to `"Settings"` does NOT delete the
override entry (the claim says the entry is still consumed): the empty
custom name is falsy, so the delete branch is never reached. -/
theorem disabled_override_empty_name_not_consumed :
    mapGet (c9Demo.onStateChange (some "Settings")).1.screenViewOverrides
      "Settings" = some "" ∧
    mapGet (c9Demo.onStateChange (some "Settings")).1.screenViewOverrides
      "Settings" ≠ none ∧
    (c9Demo.onStateChange (some "Settings")).2 = [] := by
  refine ⟨rfl, ?_, rfl⟩
  intro hcontra
  rw [show mapGet
      (c9Demo.onStateChange (some "Settings")).1.screenViewOverrides
      "Settings" = some "" from rfl] at hcontra
  exact Option.noConfusion hcontra

/-- C9 (amended): provided the registered substitute name is non-empty
(JS-truthy), a transition while tracking is disabled dispatches nothing
yet still deletes the override entry, and re-enabling tracking does not
restore it. -/
theorem override_consumed_while_disabled
    (st : UnifiedAnalytics) (s custom : String)
    (hTrack : st.trackScreenViews = false)
    (hOv : mapGet st.screenViewOverrides s = some custom)
    (hcustom : custom ≠ "") (hs : s ≠ "")
    (hprev : st.routeNameRef ≠ some s) :
    (st.onStateChange (some s)).2 = [] ∧
    mapGet (st.onStateChange (some s)).1.screenViewOverrides s = none ∧
    mapGet ((st.onStateChange (some s)).1.setTrackScreenViews
      true).screenViewOverrides s = none := by
  rw [onStateChange_override_gateClosed st s custom hTrack hprev hs
    hOv hcustom]
  exact ⟨rfl, mapGet_mapDelete_self _ _, mapGet_mapDelete_self _ _⟩

/-- Witness for the amended C9 on a concrete state. -/
theorem override_consumed_while_disabled_witness :
    ((c9Demo.setScreenViewOverride "Settings" "Settings-Custom").onStateChange
      (some "Settings")).2 = [] ∧
    mapGet ((c9Demo.setScreenViewOverride "Settings"
        "Settings-Custom").onStateChange
      (some "Settings")).1.screenViewOverrides "Settings" = none ∧
    mapGet (((c9Demo.setScreenViewOverride "Settings"
        "Settings-Custom").onStateChange
      (some "Settings")).1.setTrackScreenViews true).screenViewOverrides
      "Settings" = none :=
  override_consumed_while_disabled
    (c9Demo.setScreenViewOverride "Settings" "Settings-Custom")
    "Settings" "Settings-Custom" rfl rfl (by decide) (by decide) (by decide)

/-- C10: the object handed out by `getUserContext` (and
`getRegisteredProperties`) is a fresh copy of the store: overwriting it
leaves the store unchanged, and a second read still returns the original
contents. -/
theorem getUserContextAlloc_fresh (h : JsHeap) (ctxRef : Nat)
    (hlt : ctxRef < h.objs.length) (mutated : Obj) :
    (getUserContextAlloc h ctxRef).2 ≠ ctxRef ∧
    ((getUserContextAlloc h ctxRef).1.read (getUserContextAlloc h ctxRef).2
        = h.read ctxRef) ∧
    (((getUserContextAlloc h ctxRef).1.write
        (getUserContextAlloc h ctxRef).2 mutated).read ctxRef
        = h.read ctxRef) ∧
    ((getUserContextAlloc ((getUserContextAlloc h ctxRef).1.write
        (getUserContextAlloc h ctxRef).2 mutated) ctxRef).1.read
      (getUserContextAlloc ((getUserContextAlloc h ctxRef).1.write
        (getUserContextAlloc h ctxRef).2 mutated) ctxRef).2
        = h.read ctxRef) := by
  obtain ⟨objs⟩ := h
  simp only [getUserContextAlloc, JsHeap.alloc, JsHeap.read, JsHeap.write]
  simp only at hlt
  have hne : objs.length ≠ ctxRef := Nat.ne_of_gt hlt
  have hreadnew : ∀ (l : List Obj) (o : Obj), (l ++ [o]).getD l.length [] = o := by
    intro l o
    simp [List.getD_eq_getElem?_getD, List.getElem?_concat_length]
  have hwrite : ((objs ++ [objs.getD ctxRef []]).set objs.length
      mutated).getD ctxRef [] = objs.getD ctxRef [] := by
    rw [List.getD_eq_getElem?_getD, List.getElem?_set_ne (by omega),
      ← List.getD_eq_getElem?_getD]
    rw [List.getD_eq_getElem?_getD, List.getElem?_append_left hlt,
      ← List.getD_eq_getElem?_getD]
  refine ⟨hne, ?_, hwrite, ?_⟩
  · exact hreadnew objs (objs.getD ctxRef [])
  · rw [hreadnew, hwrite]

/-- Witness for C10 on a one-object heap. -/
theorem getUserContextAlloc_fresh_witness :
    (getUserContextAlloc ⟨[[("a", .vStr "1")]]⟩ 0).2 ≠ 0 ∧
    ((getUserContextAlloc ⟨[[("a", .vStr "1")]]⟩ 0).1.read
        (getUserContextAlloc ⟨[[("a", .vStr "1")]]⟩ 0).2
        = JsHeap.read ⟨[[("a", .vStr "1")]]⟩ 0) ∧
    (((getUserContextAlloc ⟨[[("a", .vStr "1")]]⟩ 0).1.write
        (getUserContextAlloc ⟨[[("a", .vStr "1")]]⟩ 0).2 []).read 0
        = JsHeap.read ⟨[[("a", .vStr "1")]]⟩ 0) ∧
    ((getUserContextAlloc ((getUserContextAlloc ⟨[[("a", .vStr "1")]]⟩ 0).1.write
        (getUserContextAlloc ⟨[[("a", .vStr "1")]]⟩ 0).2 []) 0).1.read
      (getUserContextAlloc ((getUserContextAlloc ⟨[[("a", .vStr "1")]]⟩ 0).1.write
        (getUserContextAlloc ⟨[[("a", .vStr "1")]]⟩ 0).2 []) 0).2
        = JsHeap.read ⟨[[("a", .vStr "1")]]⟩ 0) :=
  getUserContextAlloc_fresh ⟨[[("a", .vStr "1")]]⟩ 0 (by decide) []

end UA
